import Mathlib

/-!
Shallow embedding of `src/app.py` (Deepgram STT API Playground, a Streamlit app).

The app collects UI form values, builds a `PrerecordedOptions` object, calls the
vendor API once via `transcribe_file` (wrapped in `@st.cache_data`), and renders
fields of the JSON response.  Python dictionaries become structures, `None`
becomes `Option.none`, Python exceptions become the error branch of
`Except String`, and Streamlit display calls (`st.write`, `st.error`,
`st.code`, `st.tabs`) become an output event list.
-/

namespace DGPlay

/-- The MODELS mapping of app.py lines 31-37 (display name to model id). -/
def MODELS : List (String × String) :=
  [("Nova-2", "nova-2-ea"),
   ("Nova", "nova"),
   ("Whisper Cloud", "whisper-medium"),
   ("Enhanced", "enhanced"),
   ("Base", "base")]

/-- The LANGUAGES mapping of app.py lines 39-44; the Python value `None`
(for automatic detection) is `Option.none`. -/
def LANGUAGES : List (String × Option String) :=
  [("Automatic Language Detection", none),
   ("English", some "en"),
   ("French", some "fr"),
   ("Hindi", some "hi")]

/-- The state of the UI widgets on one script run: the two selectboxes, the
feature checkboxes (lines 135-242), the search-terms text input and the
utterance-split number input.  `pci`, `ssn`, `numbers` hold the nested
checkbox values that exist only while `redact` is checked; `search_terms`
holds the text-input value that exists only while `search` is checked. -/
structure UIState where
  language : String
  model : String
  detect_topics : Bool
  diarize : Bool
  detect_entities : Bool
  multichannel : Bool
  paragraphs : Bool
  profanity_filter : Bool
  punctuate : Bool
  redact : Bool
  numbers : Bool
  pci : Bool
  ssn : Bool
  search : Bool
  search_terms : String
  smart_format : Bool
  summarize : Bool
  utterances : Bool
  utt_split : ℚ
  deriving DecidableEq, Repr

/-- Line 188: when the Redaction checkbox is unchecked, `pci = ssn = numbers = None`;
otherwise `pci` is the nested checkbox's boolean.  Truthiness of the resulting
Python value is `Option.elim false id`. -/
def pciVal (ui : UIState) : Option Bool := if ui.redact then some ui.pci else none

/-- Python value of `ssn` (line 186 or 188). -/
def ssnVal (ui : UIState) : Option Bool := if ui.redact then some ui.ssn else none

/-- Python value of `numbers` (line 181 or 188). -/
def numbersVal (ui : UIState) : Option Bool := if ui.redact then some ui.numbers else none

/-- Truthiness of a Python `Optional[bool]`: `None` and `False` are falsy. -/
def truthyB : Option Bool → Bool
  | none => false
  | some b => b

/-- Lines 189-193: `redact_options = ["pci" if pci else None, "ssn" if ssn else None,
"numbers" if numbers else None]`. -/
def redact_options (ui : UIState) : List (Option String) :=
  [if truthyB (pciVal ui) then some "pci" else none,
   if truthyB (ssnVal ui) then some "ssn" else none,
   if truthyB (numbersVal ui) then some "numbers" else none]

/-- Line 209: `search_terms` is the text-input value while the Search checkbox is
checked, and `""` otherwise (lines 195-209). -/
def search_termsVal (ui : UIState) : String :=
  if ui.search then ui.search_terms else ""

/-- Lines 226-242: `utt_split` is the number-input value while Utterances is
checked, else `0.8`. -/
def utt_splitVal (ui : UIState) : ℚ :=
  if ui.utterances then ui.utt_split else 0.8

/-- Value of a Python dictionary entry `"detect_language": True` or
`"language": code` (lines 98-102): either a boolean or an optional string. -/
inductive LangVal where
  | boolVal (b : Bool)
  | strVal (s : Option String)
  deriving DecidableEq, Repr

/-- Lines 98-102: the one-entry dict `lang_options`.  Its key is
`"detect_language"` when automatic detection is selected and `"language"`
otherwise; the value is `True` resp. `LANGUAGES[language]`.  (This dict is
built but never passed to `PrerecordedOptions`.) -/
def lang_options (ui : UIState) : String × LangVal :=
  if ui.language = "Automatic Language Detection" then
    ("detect_language", .boolVal true)
  else
    ("language", .strVal ((LANGUAGES.lookup ui.language).getD none))

/-- The vendor SDK's `PrerecordedOptions` dataclass, restricted to the fields
the app passes plus the two language fields; every field defaults to `None`
in the SDK. -/
structure PrerecordedOptions where
  model : Option String := none
  detect_topics : Option Bool := none
  diarize : Option Bool := none
  detect_entities : Option Bool := none
  multichannel : Option Bool := none
  paragraphs : Option Bool := none
  profanity_filter : Option Bool := none
  punctuate : Option Bool := none
  redact : Option (List String) := none
  smart_format : Option Bool := none
  summarize : Option Bool := none
  search : Option String := none
  utterances : Option Bool := none
  utt_split : Option ℚ := none
  language : Option String := none
  detect_language : Option Bool := none
  deriving DecidableEq, Repr

/-- Lines 287-302: the options object built from the UI values.  `model` is
`MODELS[model]` (the selectbox only offers keys of `MODELS`), `redact` is the
comprehension `[option for option in redact_options if option]`, `search` is
the f-string `"[" + (search_terms or "") + "]"`.  No language keyword is
passed, so the SDK defaults `language` and `detect_language` to `None`. -/
def options (ui : UIState) : PrerecordedOptions :=
  { model := MODELS.lookup ui.model
    detect_topics := some ui.detect_topics
    diarize := some ui.diarize
    detect_entities := some ui.detect_entities
    multichannel := some ui.multichannel
    paragraphs := some ui.paragraphs
    profanity_filter := some ui.profanity_filter
    punctuate := some ui.punctuate
    redact := some ((redact_options ui).filterMap id)
    smart_format := some ui.smart_format
    summarize := some ui.summarize
    search := some ("[" ++ search_termsVal ui ++ "]")
    utterances := some ui.utterances
    utt_split := some (utt_splitVal ui) }

/-- One item of the response's `summaries` array (each has a `summary` field,
line 69). -/
structure SummaryItem where
  summary : String
  deriving DecidableEq, Repr

/-- The `paragraphs` sub-object of an alternative (line 82); present only when
the vendor produced it. -/
structure Paragraphs where
  transcript : String
  deriving DecidableEq, Repr

/-- One element of the response's `alternatives` array.  Absent keys of the
Python dict are `none` / `[]`; accessing them raises (`KeyError` /
`IndexError`). -/
structure Alternative where
  transcript : String := ""
  paragraphs : Option Paragraphs := none
  summaries : List SummaryItem := []
  deriving DecidableEq, Repr

/-- One element of the response's `channels` array.  `detected_language` is
read with `.get(..., None)` (line 59), hence optional. -/
structure Channel where
  detected_language : Option String := none
  alternatives : List Alternative := []
  deriving DecidableEq, Repr

/-- The `results` object of the vendor response. -/
structure Results where
  channels : List Channel := []
  deriving DecidableEq, Repr

/-- The dict returned by `transcribe_file(...).to_dict()` (lines 49-56),
restricted to the fields the app reads. -/
structure Response where
  results : Results := {}
  deriving DecidableEq, Repr

/-- A Streamlit display event: `st.write`/`tabN.write` (with the 0-based tab
index, `none` for the main area), `st.error`, `st.code`, or an `st.tabs`
call creating tabs with the given labels. -/
inductive Out where
  | write (tab : Option Nat) (s : String)
  | writeResp (tab : Nat) (r : Response)
  | error (s : String)
  | code (s : String)
  | tabs (labels : List String)
  deriving DecidableEq, Repr

/-- Truthiness of the Python `Optional[str]` bound by the walrus on line 59:
`None` and the empty string are falsy. -/
def truthyS : Option String → Bool
  | none => false
  | some s => !(s = "")

/-- Python's `list.index` on a list of optional strings: the index of the
first occurrence, `none` when absent (where Python raises `ValueError`). -/
def listIndex : List (Option String) → Option String → Option Nat
  | [], _ => none
  | a :: l, x => if a = x then some 0 else (listIndex l x).map Nat.succ

/-- Line 61: `list(LANGUAGES.keys())[list(LANGUAGES.values()).index(code)]`.
`list.index` raises `ValueError` when the code is not among the values. -/
def reverseLookup (code : String) : Except String String :=
  match listIndex (LANGUAGES.map Prod.snd) (some code) with
  | some i => .ok (((LANGUAGES.map Prod.fst)[i]?).getD "")
  | none => .error ("ValueError: " ++ code ++ " is not in list")

/-- Lines 58-62: if the first channel has a truthy `detected_language`, write
the detected-language line to the main area.  `channels[0]` raises
`IndexError` on an empty list, and the reverse lookup into `LANGUAGES` can
raise `ValueError`; neither is inside a `try`, so the error propagates out of
`prerecorded`. -/
def detectedLangStep (r : Response) : Except String (List Out) :=
  match r.results.channels[0]? with
  | none => .error "IndexError: list index out of range"
  | some ch =>
    match ch.detected_language with
    | none => .ok []
    | some dl =>
      if dl = "" then .ok []
      else
        match reverseLookup dl with
        | .error e => .error e
        | .ok name =>
          .ok [.write none ("🔠 __Detected language:__ " ++ dl ++ " (" ++ name ++ ")")]

/-- Lines 67-70: `response["results"]["channels"][0]["alternatives"][0]["summaries"][0]["summary"]`;
each missing index raises. -/
def summaryLookup (r : Response) : Except String String :=
  match r.results.channels[0]? with
  | none => .error "IndexError: list index out of range"
  | some ch =>
    match ch.alternatives[0]? with
    | none => .error "IndexError: list index out of range"
    | some alt =>
      match alt.summaries[0]? with
      | none => .error "IndexError: list index out of range"
      | some s => .ok s.summary

/-- Lines 65-74: with Summarization on, create three tabs and try to write the
summary into tab 3, turning any exception into `st.error`; otherwise create
two tabs. -/
def summaryStep (summarize : Bool) (r : Response) : List Out :=
  if summarize then
    Out.tabs ["📝Response", "🗒️Transcript", "🤏Summary"] ::
      (match summaryLookup r with
       | .ok s => [.write (some 2) s]
       | .error e => [.error e])
  else
    [Out.tabs ["📝Response", "🗒️Transcript"]]

/-- Lines 79-87 (inner lookup): the transcript to render in the Transcript
tab — the paragraphs transcript when `paragraphs or smart_format`, the plain
transcript otherwise; missing keys raise. -/
def transcriptLookup (paragraphs smart_format : Bool) (r : Response) :
    Except String String :=
  match r.results.channels[0]? with
  | none => .error "IndexError: list index out of range"
  | some ch =>
    match ch.alternatives[0]? with
    | none => .error "IndexError: list index out of range"
    | some alt =>
      if paragraphs || smart_format then
        match alt.paragraphs with
        | none => .error "KeyError: paragraphs"
        | some p => .ok p.transcript
      else
        .ok alt.transcript

/-- Lines 75-87: write the whole response into tab 1 and the transcript into
tab 2, each in its own `try`/`except` that turns the exception into an
`st.error`. -/
def transcriptStep (paragraphs smart_format : Bool) (r : Response) : List Out :=
  Out.writeResp 0 r ::
    (match transcriptLookup paragraphs smart_format r with
     | .ok s => [.write (some 1) s]
     | .error e => [.error e])

/-- Lines 58-87: the body of `prerecorded` after the `transcribe_file` call,
as the display events it emits paired with the exception (if any) escaping
it.  Only the detected-language step (lines 58-62) can raise out of the
body; the remaining steps catch their own exceptions. -/
def prerecordedRender (paragraphs smart_format summarize : Bool) (r : Response) :
    List Out × Option String :=
  match detectedLangStep r with
  | .error e => ([], some e)
  | .ok outs =>
    (outs ++ summaryStep summarize r ++ transcriptStep paragraphs smart_format r, none)

/-- The audio source passed to `prerecorded` (lines 304-312): a dict with a
single `buffer` entry, modelled as the byte sequence. -/
structure Source where
  buffer : List Nat
  deriving DecidableEq, Repr

/-- State of the `@st.cache_data` memo on `prerecorded` (line 46), plus a
counter of remote `transcribe_file` calls issued so far. -/
structure CacheState where
  cache : List ((Source × PrerecordedOptions) × Response) := []
  remoteCalls : Nat := 0
  deriving DecidableEq, Repr

/-- Lines 46-56 with the `@st.cache_data` decorator: invoking `prerecorded`
first consults the memo keyed on the argument pair; on a hit the body is
skipped and the stored response replayed, on a miss `transcribe_file` is
called (the one remote request, counted) and the result stored.  The vendor's
behaviour is the external function `api`. -/
def cachedTranscribe (api : Source → PrerecordedOptions → Response)
    (st : CacheState) (source : Source) (opts : PrerecordedOptions) :
    CacheState × Response :=
  match st.cache.lookup (source, opts) with
  | some r => (st, r)
  | none =>
    let r := api source opts
    ({ cache := ((source, opts), r) :: st.cache, remoteCalls := st.remoteCalls + 1 }, r)

/-- The inputs to the API-key resolution (lines 114-133): the text-input value
(`""` when left empty), `st.secrets` and `os.environ` as association lists. -/
structure KeyEnv where
  textInput : String
  secrets : List (String × String)
  environ : List (String × String)
  deriving DecidableEq, Repr

/-- Lines 124-133: resolve the Deepgram API key.  A non-empty text input wins;
otherwise the `DEEPGRAM_API_KEY` entry of `st.secrets`, then of `os.environ`;
if none exists the app shows an error and `st.stop()`s before
`DeepgramClient` is constructed (`none`). -/
def resolveApiKey (env : KeyEnv) : Option String :=
  if env.textInput = "" then
    match env.secrets.lookup "DEEPGRAM_API_KEY" with
    | some v => some v
    | none =>
      match env.environ.lookup "DEEPGRAM_API_KEY" with
      | some v => some v
      | none => none
  else
    some env.textInput

/-- Python's `str.endswith` (line 324): the second string is a suffix of the
first. -/
def strEndsWith (s post : String) : Bool := post.data.isSuffixOf s.data

/-- `traceback.format_exc()` (line 338), an external rendering of the caught
exception. -/
def formatExc (e : String) : String := "Traceback: " ++ e

/-- Lines 324-329: the timeout-specific error message. -/
def timeoutMessage (e : String) : String :=
  e ++ "  Please try after some time, or try with a smaller source if the issue persists."

/-- Lines 331-336: the generic error message shown with the traceback. -/
def genericMessage (e : String) : String :=
  "The app has encountered an error: " ++ e ++ " Please create an issue with the below traceback"

/-- Lines 323-338: the `except Exception` clause of the Transcribe click
handler.  A message ending in "timed out" yields one timeout error; anything
else yields the generic error followed by `st.code(traceback.format_exc())`. -/
def handleException (e : String) : List Out :=
  if strEndsWith e "timed out" then
    [.error (timeoutMessage e)]
  else
    [.error (genericMessage e), .code (formatExc e)]

/-- A `try`/`except Exception` block: the body's events, and on an escaping
exception the handler's events appended; the block itself never lets the
exception continue. -/
def tryExcept (body : List Out × Option String) (handler : String → List Out) :
    List Out × Option String :=
  match body with
  | (outs, none) => (outs, none)
  | (outs, some e) => (outs ++ handler e, none)

/-- Lines 320-338: the Transcribe click handler.  `transcribeResult` is the
outcome of the `transcribe_file` network call (`Except.error` when the vendor
call itself raises); on success the response is rendered by the body of
`prerecorded`.  The whole call is wrapped in the `try`/`except` of
lines 321-338. -/
def clickHandler (paragraphs smart_format summarize : Bool)
    (transcribeResult : Except String Response) : List Out × Option String :=
  tryExcept
    (match transcribeResult with
     | .error e => ([], some e)
     | .ok r => prerecordedRender paragraphs smart_format summarize r)
    handleException

/-! Concrete fixtures used by counterexamples and witnesses. -/

/-- A well-formed vendor response: English detected, one channel, one
alternative carrying a plain transcript, a paragraphs transcript and one
summary. -/
def respEx : Response :=
  { results :=
    { channels :=
      [{ detected_language := some "en",
         alternatives :=
           [{ transcript := "plain transcript",
              paragraphs := some { transcript := "paragraphs transcript" },
              summaries := [{ summary := "a summary" }] }] }] } }

/-- Like `respEx` but with detected language "de", a code the app's
`LANGUAGES` mapping does not contain. -/
def respDe : Response :=
  { results :=
    { channels :=
      [{ detected_language := some "de",
         alternatives :=
           [{ transcript := "plain transcript",
              paragraphs := some { transcript := "paragraphs transcript" },
              summaries := [{ summary := "a summary" }] }] }] } }

/-- A concrete UI state: French selected, Search checked with terms entered,
Redaction unchecked. -/
def uiFr : UIState :=
  { language := "French", model := "Nova-2", detect_topics := true, diarize := true,
    detect_entities := true, multichannel := false, paragraphs := true,
    profanity_filter := false, punctuate := false, redact := false, numbers := false,
    pci := false, ssn := false, search := true, search_terms := "hello",
    smart_format := true, summarize := true, utterances := true, utt_split := 4/5 }

/-- A concrete audio source. -/
def src0 : Source := { buffer := [1, 2, 3] }

/-- The options object of the concrete UI state. -/
def opts0 : PrerecordedOptions := options uiFr

/-- A concrete vendor behaviour: every request yields `respEx`. -/
def api0 : Source → PrerecordedOptions → Response := fun _ _ => respEx

/-! Theorems. -/

/-- C5: the options object's redact field is exactly the subset of
pci, ssn, numbers whose checkboxes the user checked, and is the empty list
whenever the Redaction checkbox is unchecked. -/
theorem C5_redact_exact (ui : UIState) :
    ∃ l, (options ui).redact = some l ∧
      (ui.redact = false → l = []) ∧
      (∀ s, s ∈ l ↔ ui.redact = true ∧
        ((s = "pci" ∧ ui.pci = true) ∨ (s = "ssn" ∧ ui.ssn = true) ∨
         (s = "numbers" ∧ ui.numbers = true))) := by
  refine ⟨(redact_options ui).filterMap id, rfl, ?_, ?_⟩
  · intro hr
    simp [redact_options, pciVal, ssnVal, numbersVal, truthyB, hr]
  · intro s
    cases hr : ui.redact <;> cases hp : ui.pci <;> cases hs : ui.ssn <;>
      cases hn : ui.numbers <;>
      simp [redact_options, pciVal, ssnVal, numbersVal, truthyB, hr, hp, hs, hn]

/-- C6: with both index lookups succeeding and the paragraphs sub-object
present, the Transcript tab (tab index 1) shows the paragraphs transcript
when Paragraphs or Smart Format is enabled and the plain transcript
otherwise. -/
theorem C6_transcript_choice (p sf : Bool) (r : Response) (ch : Channel)
    (alt : Alternative) (pg : Paragraphs)
    (hch : r.results.channels[0]? = some ch)
    (halt : ch.alternatives[0]? = some alt)
    (hpg : alt.paragraphs = some pg) :
    transcriptStep p sf r =
      [Out.writeResp 0 r,
       Out.write (some 1) (if p || sf then pg.transcript else alt.transcript)] := by
  cases p <;> cases sf <;>
    simp [transcriptStep, transcriptLookup, hch, halt, hpg]

/-- Witness for C6 on the concrete response with Paragraphs enabled. -/
theorem C6_transcript_choice_witness :
    transcriptStep true false respEx =
      [Out.writeResp 0 respEx, Out.write (some 1) "paragraphs transcript"] :=
  C6_transcript_choice true false respEx _ _ _ rfl rfl rfl

/-- C8: the API key is resolved with precedence text input, then Streamlit
secrets, then the environment variable; when all three are absent the app
stops (no client is created, modelled by `none`). -/
theorem C8_api_key_precedence (env : KeyEnv) :
    (env.textInput ≠ "" → resolveApiKey env = some env.textInput) ∧
    (env.textInput = "" →
      ∀ v, env.secrets.lookup "DEEPGRAM_API_KEY" = some v →
        resolveApiKey env = some v) ∧
    (env.textInput = "" → env.secrets.lookup "DEEPGRAM_API_KEY" = none →
      ∀ v, env.environ.lookup "DEEPGRAM_API_KEY" = some v →
        resolveApiKey env = some v) ∧
    (env.textInput = "" → env.secrets.lookup "DEEPGRAM_API_KEY" = none →
      env.environ.lookup "DEEPGRAM_API_KEY" = none → resolveApiKey env = none) := by
  refine ⟨fun h => by simp [resolveApiKey, h], fun h v hv => ?_, fun h hs v hv => ?_,
    fun h hs he => ?_⟩ <;> simp [resolveApiKey, h, *]

/-- Witness for C8: with the text input empty and no secret, the environment
variable is used. -/
theorem C8_api_key_precedence_witness :
    resolveApiKey
      { textInput := "", secrets := [], environ := [("DEEPGRAM_API_KEY", "k")] } =
      some "k" :=
  (C8_api_key_precedence
    { textInput := "", secrets := [], environ := [("DEEPGRAM_API_KEY", "k")] }).2.2.1
    rfl rfl "k" rfl

/-- C10: an exception message ending in "timed out" produces one
timeout-specific error and no traceback; every other message produces the
generic error followed by the formatted traceback in an `st.code` block. -/
theorem C10_timeout_branch (e : String) :
    (strEndsWith e "timed out" = true →
      handleException e = [Out.error (timeoutMessage e)]) ∧
    (strEndsWith e "timed out" = false →
      handleException e = [Out.error (genericMessage e), Out.code (formatExc e)]) ∧
    (∀ s, Out.code s ∈ handleException e ↔
      strEndsWith e "timed out" = false ∧ s = formatExc e) := by
  cases h : strEndsWith e "timed out" <;> simp [handleException, h]

/-- Witness for C10 on a timed-out message and a generic message. -/
theorem C10_timeout_branch_witness :
    handleException "request timed out" =
        [Out.error (timeoutMessage "request timed out")] ∧
    handleException "boom" =
        [Out.error (genericMessage "boom"), Out.code (formatExc "boom")] :=
  ⟨(C10_timeout_branch "request timed out").1 (by decide),
   (C10_timeout_branch "boom").2.1 (by decide)⟩

/-- The reverse lookup of line 61 succeeds exactly for the three concrete
language codes of `LANGUAGES` (the `None` value of automatic detection is
never matched by a string code). -/
theorem reverseLookup_ok_iff (dl : String) :
    (∃ name, reverseLookup dl = .ok name) ↔
      dl ∈ (["en", "fr", "hi"] : List String) := by
  by_cases h1 : dl = "en"
  · subst h1; simp [reverseLookup, LANGUAGES, listIndex]
  · by_cases h2 : dl = "fr"
    · subst h2; simp [reverseLookup, LANGUAGES, listIndex]
    · by_cases h3 : dl = "hi"
      · subst h3; simp [reverseLookup, LANGUAGES, listIndex]
      · simp [reverseLookup, LANGUAGES, listIndex, h1, h2, h3,
          Ne.symm h1, Ne.symm h2, Ne.symm h3]

/-- The reverse lookup fails with the `ValueError` for codes outside
`LANGUAGES`. -/
theorem reverseLookup_error (dl : String)
    (h : dl ∉ (["en", "fr", "hi"] : List String)) :
    reverseLookup dl = .error ("ValueError: " ++ dl ++ " is not in list") := by
  simp only [List.mem_cons, List.not_mem_nil, or_false, not_or] at h
  obtain ⟨h1, h2, h3⟩ := h
  simp [reverseLookup, LANGUAGES, listIndex, Ne.symm h1, Ne.symm h2, Ne.symm h3]

/-- C9: a truthy detected_language outside en, fr, hi makes the reverse
lookup into `LANGUAGES` raise a `ValueError` that escapes the
detected-language step (so the body of `prerecorded` emits nothing and the
exception propagates); the detected-language display succeeds exactly for
those three codes. -/
theorem C9_partial_reverse_lookup (r : Response) (ch : Channel) (dl : String)
    (hch : r.results.channels[0]? = some ch)
    (hdl : ch.detected_language = some dl) (hne : dl ≠ "") :
    ((∃ outs, detectedLangStep r = .ok outs) ↔
      dl ∈ (["en", "fr", "hi"] : List String)) ∧
    (dl ∉ (["en", "fr", "hi"] : List String) →
      detectedLangStep r = .error ("ValueError: " ++ dl ++ " is not in list") ∧
      ∀ p sf sm : Bool, prerecordedRender p sf sm r =
        ([], some ("ValueError: " ++ dl ++ " is not in list"))) := by
  constructor
  · rw [← reverseLookup_ok_iff]
    constructor
    · rintro ⟨outs, houts⟩
      rcases hrl : reverseLookup dl with e | name
      · rw [detectedLangStep, hch] at houts
        simp [hdl, hne, hrl] at houts
      · exact ⟨name, rfl⟩
    · rintro ⟨name, hname⟩
      refine ⟨[Out.write none
        ("🔠 __Detected language:__ " ++ dl ++ " (" ++ name ++ ")")], ?_⟩
      rw [detectedLangStep, hch]
      simp [hdl, hne, hname]
  · intro hmem
    have herr := reverseLookup_error dl hmem
    have hstep : detectedLangStep r =
        .error ("ValueError: " ++ dl ++ " is not in list") := by
      rw [detectedLangStep, hch]
      simp [hdl, hne, herr]
    exact ⟨hstep, fun p sf sm => by rw [prerecordedRender, hstep]⟩

/-- Witness for C9 on the concrete response whose detected language is "de". -/
theorem C9_partial_reverse_lookup_witness :
    detectedLangStep respDe = .error ("ValueError: " ++ "de" ++ " is not in list") ∧
    prerecordedRender true true true respDe =
      ([], some ("ValueError: " ++ "de" ++ " is not in list")) := by
  have h := (C9_partial_reverse_lookup respDe
      { detected_language := some "de",
        alternatives :=
          [{ transcript := "plain transcript",
             paragraphs := some { transcript := "paragraphs transcript" },
             summaries := [{ summary := "a summary" }] }] }
      "de" rfl rfl (by decide)).2 (by decide)
  exact ⟨h.1, h.2 true true true⟩

/-- C3: every exception from the transcription call or from rendering the
response is caught by the click handler's `except Exception` clause and
turned into displayed output; the handler adds only `st.error` and `st.code`
events (display, no other recovery), and no exception escapes the handler. -/
theorem C3_exceptions_caught (p sf sm : Bool) (tr : Except String Response) :
    (clickHandler p sf sm tr).2 = none ∧
    (∀ e, tr = .error e → clickHandler p sf sm tr = (handleException e, none)) ∧
    (∀ r e, tr = .ok r → (prerecordedRender p sf sm r).2 = some e →
      clickHandler p sf sm tr =
        ((prerecordedRender p sf sm r).1 ++ handleException e, none)) ∧
    (∀ e, ∃ m, Out.error m ∈ handleException e) ∧
    (∀ e o, o ∈ handleException e →
      (∃ m, o = Out.error m) ∨ (∃ s, o = Out.code s)) := by
  refine ⟨?_, ?_, ?_, ?_, ?_⟩
  · rcases tr with e | r
    · rfl
    · rcases hb : prerecordedRender p sf sm r with ⟨outs, exc⟩
      rcases exc with _ | e <;> simp [clickHandler, tryExcept, hb]
  · rintro e rfl; rfl
  · rintro r e rfl hsome
    rcases hb : prerecordedRender p sf sm r with ⟨outs, exc⟩
    rw [hb] at hsome
    simp at hsome
    subst hsome
    simp [clickHandler, tryExcept, hb]
  · intro e
    by_cases h : strEndsWith e "timed out" = true
    · exact ⟨timeoutMessage e, by simp [handleException, h]⟩
    · exact ⟨genericMessage e, by simp [handleException, h]⟩
  · intro e o ho
    by_cases h : strEndsWith e "timed out" = true <;>
      simp [handleException, h] at ho
    · exact Or.inl ⟨_, ho⟩
    · rcases ho with ho | ho
      · exact Or.inl ⟨_, ho⟩
      · exact Or.inr ⟨_, ho⟩

/-- Witness for C3: a failing transcription call on concrete inputs is caught
and rendered through the exception handler. -/
theorem C3_exceptions_caught_witness :
    clickHandler true true true (Except.error "boom") =
      (handleException "boom", none) :=
  (C3_exceptions_caught true true true (Except.error "boom")).2.1 "boom" rfl

/-- Looking up the key just stored at the head of an association list yields
the stored value. -/
theorem lookup_cons_self {α β : Type} [BEq α] [LawfulBEq α] (a : α) (b : β)
    (l : List (α × β)) : List.lookup a ((a, b) :: l) = some b := by
  simp [List.lookup]

/-- A cache miss runs the body: one remote call, and the response is stored. -/
theorem cachedTranscribe_miss (api : Source → PrerecordedOptions → Response)
    (st : CacheState) (src : Source) (opts : PrerecordedOptions)
    (h : st.cache.lookup (src, opts) = none) :
    cachedTranscribe api st src opts =
      ({ cache := ((src, opts), api src opts) :: st.cache,
         remoteCalls := st.remoteCalls + 1 }, api src opts) := by
  rw [cachedTranscribe, h]

/-- A cache hit skips the body: the stored response is returned unchanged. -/
theorem cachedTranscribe_hit (api : Source → PrerecordedOptions → Response)
    (st : CacheState) (src : Source) (opts : PrerecordedOptions) (r : Response)
    (h : st.cache.lookup (src, opts) = some r) :
    cachedTranscribe api st src opts = (st, r) := by
  rw [cachedTranscribe, h]

/-- C1 counterexample: with French selected and search terms "hello"
entered, the options object contains no language field at all — the
`lang_options` dict built on lines 98-102 carries `("language", "fr")` but is
never passed to `PrerecordedOptions` — and the search field is the bracketed
string "[hello]", not the terms as entered. -/
theorem C1_counterexample :
    uiFr.language = "French" ∧
    lang_options uiFr = ("language", LangVal.strVal (some "fr")) ∧
    (options uiFr).language = none ∧
    (options uiFr).detect_language = none ∧
    uiFr.search_terms = "hello" ∧
    (options uiFr).search = some "[hello]" ∧
    (options uiFr).search ≠ some uiFr.search_terms := by
  refine ⟨rfl, rfl, rfl, rfl, rfl, rfl, by decide⟩

/-- C1 amended: the options object forwards the feature checkbox selections
verbatim, but the language selection is dropped (changing the selected
language changes nothing in the options, whose language fields stay at the
SDK default `None`), and the search terms are wrapped in square brackets
rather than passed as entered. -/
theorem C1_options_forwarding (ui : UIState) :
    (options ui).detect_topics = some ui.detect_topics ∧
    (options ui).diarize = some ui.diarize ∧
    (options ui).detect_entities = some ui.detect_entities ∧
    (options ui).multichannel = some ui.multichannel ∧
    (options ui).paragraphs = some ui.paragraphs ∧
    (options ui).profanity_filter = some ui.profanity_filter ∧
    (options ui).punctuate = some ui.punctuate ∧
    (options ui).smart_format = some ui.smart_format ∧
    (options ui).summarize = some ui.summarize ∧
    (options ui).utterances = some ui.utterances ∧
    (options ui).utt_split = some (utt_splitVal ui) ∧
    (options ui).language = none ∧
    (options ui).detect_language = none ∧
    (options ui).search = some ("[" ++ search_termsVal ui ++ "]") ∧
    (∀ lang, options { ui with language := lang } = options ui) :=
  ⟨rfl, rfl, rfl, rfl, rfl, rfl, rfl, rfl, rfl, rfl, rfl, rfl, rfl, rfl,
   fun _ => rfl⟩

/-- C2 counterexample: invoking `prerecorded` twice with the same source and
options performs the remote call only once — the second invocation returns
the previously stored response from the `st.cache_data` memo with the
remote-call counter still at 1, contradicting "performs the remote
transcription call anew". -/
theorem C2_counterexample :
    (cachedTranscribe api0 {} src0 opts0).1.remoteCalls = 1 ∧
    cachedTranscribe api0 (cachedTranscribe api0 {} src0 opts0).1 src0 opts0 =
      ((cachedTranscribe api0 {} src0 opts0).1, respEx) := by
  have h1 : cachedTranscribe api0 {} src0 opts0 =
      ({ cache := [((src0, opts0), respEx)], remoteCalls := 1 }, respEx) :=
    cachedTranscribe_miss api0 {} src0 opts0 rfl
  constructor
  · rw [h1]
  · rw [h1]
    exact cachedTranscribe_hit api0 _ src0 opts0 respEx
      (lookup_cons_self (src0, opts0) respEx [])

/-- C2 amended: `prerecorded` is memoized by `st.cache_data`, keyed on the
(source, options) pair: repeating an invocation with the same arguments
returns the stored response unchanged and issues no further remote call. -/
theorem C2_memoized (api : Source → PrerecordedOptions → Response)
    (st : CacheState) (src : Source) (opts : PrerecordedOptions) :
    cachedTranscribe api (cachedTranscribe api st src opts).1 src opts =
      cachedTranscribe api st src opts ∧
    (cachedTranscribe api (cachedTranscribe api st src opts).1 src opts).1.remoteCalls =
      (cachedTranscribe api st src opts).1.remoteCalls := by
  rcases h : st.cache.lookup (src, opts) with _ | r
  · have h1 : cachedTranscribe api st src opts =
        ({ cache := ((src, opts), api src opts) :: st.cache,
           remoteCalls := st.remoteCalls + 1 }, api src opts) := by
      rw [cachedTranscribe, h]
    rw [h1]
    constructor
    · rw [cachedTranscribe]
      simp [List.lookup]
    · rw [cachedTranscribe]
      simp [List.lookup]
  · have h1 : cachedTranscribe api st src opts = (st, r) := by
      rw [cachedTranscribe, h]
    rw [h1, cachedTranscribe, h]
    exact ⟨rfl, rfl⟩

/-- C4 counterexample: the second invocation of `prerecorded` with the same
arguments issues zero network requests, not exactly one — the remote-call
counter stays at its previous value instead of increasing by one. -/
theorem C4_counterexample :
    (cachedTranscribe api0 (cachedTranscribe api0 {} src0 opts0).1 src0 opts0).1.remoteCalls -
      (cachedTranscribe api0 {} src0 opts0).1.remoteCalls = 0 ∧
    ¬ (cachedTranscribe api0 (cachedTranscribe api0 {} src0 opts0).1 src0 opts0).1.remoteCalls =
      (cachedTranscribe api0 {} src0 opts0).1.remoteCalls + 1 := by
  have h1 : cachedTranscribe api0 {} src0 opts0 =
      ({ cache := [((src0, opts0), respEx)], remoteCalls := 1 }, respEx) :=
    cachedTranscribe_miss api0 {} src0 opts0 rfl
  have h2 : cachedTranscribe api0 (cachedTranscribe api0 {} src0 opts0).1 src0 opts0 =
      ((cachedTranscribe api0 {} src0 opts0).1, respEx) := by
    rw [h1]
    exact cachedTranscribe_hit api0 _ src0 opts0 respEx
      (lookup_cons_self (src0, opts0) respEx [])
  constructor
  · rw [h2, h1]
    rfl
  · rw [h2, h1]
    decide

/-- C4 amended: a cache-miss invocation of `prerecorded` issues exactly one
call to `transcribe_file` (the app's only outbound request) and a cache-hit
invocation issues none: the remote-call counter grows by one exactly when the
(source, options) pair is not in the memo. -/
theorem C4_one_call_per_miss (api : Source → PrerecordedOptions → Response)
    (st : CacheState) (src : Source) (opts : PrerecordedOptions) :
    (cachedTranscribe api st src opts).1.remoteCalls =
      st.remoteCalls + (if st.cache.lookup (src, opts) = none then 1 else 0) := by
  rcases h : st.cache.lookup (src, opts) with _ | r <;>
    rw [cachedTranscribe, h] <;> simp

/-- The summary step (lines 65-74) never writes to the main area. -/
theorem summaryStep_no_main_write (sm : Bool) (r : Response) (s : String) :
    Out.write none s ∉ summaryStep sm r := by
  cases sm
  · simp [summaryStep]
  · rcases h : summaryLookup r with e | t <;> simp [summaryStep, h]

/-- The response/transcript step (lines 75-87) never writes to the main
area. -/
theorem transcriptStep_no_main_write (p sf : Bool) (r : Response) (s : String) :
    Out.write none s ∉ transcriptStep p sf r := by
  rcases h : transcriptLookup p sf r with e | t <;> simp [transcriptStep, h]

/-- The response/transcript step creates no tabs. -/
theorem transcriptStep_no_tabs (p sf : Bool) (r : Response) (ls : List String) :
    Out.tabs ls ∉ transcriptStep p sf r := by
  rcases h : transcriptLookup p sf r with e | t <;> simp [transcriptStep, h]

/-- The summary step creates a tab bar containing the Summary tab exactly
when Summarization is enabled. -/
theorem summaryStep_summary_tab_iff (sm : Bool) (r : Response) :
    (∃ ls, Out.tabs ls ∈ summaryStep sm r ∧ "🤏Summary" ∈ ls) ↔ sm = true := by
  cases sm
  · constructor
    · rintro ⟨ls, hmem, hin⟩
      simp [summaryStep] at hmem
      subst hmem
      exact absurd hin (by decide)
    · intro h
      exact absurd h (by decide)
  · constructor
    · intro _
      rfl
    · intro _
      refine ⟨["📝Response", "🗒️Transcript", "🤏Summary"], ?_, by decide⟩
      rcases h : summaryLookup r with e | t <;> simp [summaryStep, h]

/-- Shape of a successful detected-language step: no output when the field
is absent or empty, exactly one main-area write when it is truthy (and was
found in `LANGUAGES`). -/
theorem detectedLangStep_ok_shape (r : Response) (ch : Channel)
    (outs : List Out) (hch : r.results.channels[0]? = some ch)
    (hok : detectedLangStep r = .ok outs) :
    (truthyS ch.detected_language = false → outs = []) ∧
    (truthyS ch.detected_language = true → ∃ s, outs = [Out.write none s]) := by
  rw [detectedLangStep, hch] at hok
  rcases hdl : ch.detected_language with _ | dl
  · simp [hdl] at hok
    subst hok
    simp [truthyS]
  · simp only [hdl] at hok
    by_cases hne : dl = ""
    · subst hne
      simp at hok
      subst hok
      simp [truthyS]
    · rcases hrl : reverseLookup dl with e | name
      · simp [hne, hrl] at hok
      · simp [hne, hrl] at hok
        subst hok
        refine ⟨fun hcon => ?_, fun _ => ⟨_, rfl⟩⟩
        simp [truthyS, hne] at hcon

/-- C7 counterexample: on a response whose first channel carries the truthy
detected language "de" (with Summarization enabled), no detected-language
line is shown and no Summary tab is created — the body raises before any
display, so neither half of the claim's "if and only if" holds as stated. -/
theorem C7_counterexample :
    (∃ ch, respDe.results.channels[0]? = some ch ∧
      truthyS ch.detected_language = true) ∧
    (prerecordedRender true true true respDe).1 = [] ∧
    (¬ ∃ s, Out.write none s ∈ (prerecordedRender true true true respDe).1) ∧
    (¬ ∃ ls, Out.tabs ls ∈ (prerecordedRender true true true respDe).1 ∧
      "🤏Summary" ∈ ls) := by
  have h : (prerecordedRender true true true respDe).1 = [] := by decide
  refine ⟨⟨_, rfl, by decide⟩, h, ?_, ?_⟩ <;> simp [h]

/-- C7 amended: provided the detected-language step raises no exception, the
detected-language line (the only main-area write of the body) is shown iff
the first channel carries a truthy detected_language, and a tab bar with the
Summary tab exists iff Summarization is enabled.  (When that step raises —
a truthy code outside `LANGUAGES` — nothing at all is displayed by the
body.) -/
theorem C7_display_branches (p sf sm : Bool) (r : Response) (ch : Channel)
    (outs0 : List Out) (hch : r.results.channels[0]? = some ch)
    (hok : detectedLangStep r = .ok outs0) :
    ((∃ s, Out.write none s ∈ (prerecordedRender p sf sm r).1) ↔
      truthyS ch.detected_language = true) ∧
    ((∃ ls, Out.tabs ls ∈ (prerecordedRender p sf sm r).1 ∧ "🤏Summary" ∈ ls) ↔
      sm = true) := by
  have hrender : (prerecordedRender p sf sm r).1 =
      outs0 ++ summaryStep sm r ++ transcriptStep p sf r := by
    rw [prerecordedRender, hok]
  obtain ⟨hfalse, htrue⟩ := detectedLangStep_ok_shape r ch outs0 hch hok
  have hshape : outs0 = [] ∨ ∃ s, outs0 = [Out.write none s] := by
    cases hdl : truthyS ch.detected_language
    · exact Or.inl (hfalse hdl)
    · exact Or.inr (htrue hdl)
  constructor
  · constructor
    · rintro ⟨s, hs⟩
      rw [hrender] at hs
      simp only [List.mem_append] at hs
      rcases hs with (hs | hs) | hs
      · by_contra hcon
        rw [Bool.not_eq_true] at hcon
        rw [hfalse hcon] at hs
        simp at hs
      · exact absurd hs (summaryStep_no_main_write sm r s)
      · exact absurd hs (transcriptStep_no_main_write p sf r s)
    · intro htru
      obtain ⟨s, hs⟩ := htrue htru
      refine ⟨s, ?_⟩
      rw [hrender, hs]
      simp
  · constructor
    · rintro ⟨ls, hmem, hin⟩
      rw [hrender] at hmem
      simp only [List.mem_append] at hmem
      rcases hmem with (hmem | hmem) | hmem
      · rcases hshape with h0 | ⟨s, h0⟩ <;> rw [h0] at hmem <;> simp at hmem
      · exact (summaryStep_summary_tab_iff sm r).mp ⟨ls, hmem, hin⟩
      · exact absurd hmem (transcriptStep_no_tabs p sf r ls)
    · intro hsm
      obtain ⟨ls, hmem, hin⟩ := (summaryStep_summary_tab_iff sm r).mpr hsm
      refine ⟨ls, ?_, hin⟩
      rw [hrender]
      simp only [List.mem_append]
      exact Or.inl (Or.inr hmem)

/-- Witness for C7 on the concrete English-detected response. -/
theorem C7_display_branches_witness :
    (∃ s, Out.write none s ∈ (prerecordedRender true true true respEx).1) ∧
    (∃ ls, Out.tabs ls ∈ (prerecordedRender true true true respEx).1 ∧
      "🤏Summary" ∈ ls) := by
  have h := C7_display_branches true true true respEx
    { detected_language := some "en",
      alternatives :=
        [{ transcript := "plain transcript",
           paragraphs := some { transcript := "paragraphs transcript" },
           summaries := [{ summary := "a summary" }] }] }
    [Out.write none "🔠 __Detected language:__ en (English)"] rfl rfl
  exact ⟨h.1.mpr (by decide), h.2.mpr rfl⟩

/-- A UI state with Redaction checked and the PCI and Numbers sub-boxes
checked. -/
def uiRedact : UIState :=
  { uiFr with redact := true, pci := true, ssn := false, numbers := true }

/-- Witness for the C1 theorem on the concrete UI state. -/
theorem C1_options_forwarding_witness :
    (options uiFr).language = none ∧ (options uiFr).detect_language = none := by
  obtain ⟨-, -, -, -, -, -, -, -, -, -, -, h1, h2, -, -⟩ := C1_options_forwarding uiFr
  exact ⟨h1, h2⟩

/-- Witness for the C2 theorem on the concrete inputs. -/
theorem C2_memoized_witness :
    cachedTranscribe api0 (cachedTranscribe api0 {} src0 opts0).1 src0 opts0 =
      cachedTranscribe api0 {} src0 opts0 :=
  (C2_memoized api0 {} src0 opts0).1

/-- Witness for the C4 theorem on the concrete inputs (an empty cache, hence
a miss). -/
theorem C4_one_call_per_miss_witness :
    (cachedTranscribe api0 {} src0 opts0).1.remoteCalls =
      ({} : CacheState).remoteCalls +
        (if ({} : CacheState).cache.lookup (src0, opts0) = none then 1 else 0) :=
  C4_one_call_per_miss api0 {} src0 opts0

/-- Witness for C5 on a concrete UI state with PCI and Numbers checked. -/
theorem C5_redact_exact_witness :
    (options uiRedact).redact = some ["pci", "numbers"] ∧
    ∃ l, (options uiRedact).redact = some l ∧
      (uiRedact.redact = false → l = []) ∧
      (∀ s, s ∈ l ↔ uiRedact.redact = true ∧
        ((s = "pci" ∧ uiRedact.pci = true) ∨ (s = "ssn" ∧ uiRedact.ssn = true) ∨
         (s = "numbers" ∧ uiRedact.numbers = true))) :=
  ⟨by decide, C5_redact_exact uiRedact⟩

end DGPlay
